import Mathlib

/-!
Verification of the halloween_coffin scene-execution system.

Shallow embedding of the Python sources:
  * `src/plugins/govee_plugin.py`  (GoveeLight: set_color, flash)
  * `src/plugins/motor.py`         (Motor: move_forward, move_reverse)
  * `src/plugins/ultrasonic.py`    (read_distance validity)
  * `src/main.py`                  (get_shortest_distance)
  * `src/scene_manager.py`         (get_scene, execute_scene, execute_step,
                                    execute_effects, execute_emergency_cleanup)
  * `src/old_files/main.py`        (run_halloween_sequence busy guard)

Hardware side effects are modelled as explicit command traces; exceptions
raised by collaborator calls are modelled by explicit fault parameters.
-/

set_option autoImplicit false

namespace HalloweenCoffin

/-! ## Govee light (src/plugins/govee_plugin.py) -/

/-- UDP commands the Govee plugin can send (the `msg.cmd` payloads). -/
inductive GoveeCmd
  | turnOn
  | turnOff
  | colorwc (r g b : Int)
  deriving DecidableEq, Repr

def MIN_COLOR_VALUE : Int := 0

def MAX_COLOR_VALUE : Int := 255

/-- `_validate_color_value`: `MIN_COLOR_VALUE <= value <= MAX_COLOR_VALUE`. -/
def validate_color_value (value : Int) : Bool :=
  decide (MIN_COLOR_VALUE ≤ value) && decide (value ≤ MAX_COLOR_VALUE)

/-- `set_color`: validates all three channels, then sends one `colorwc` command.
`sendOk` is the result of the UDP send. Returns (result, commands sent). -/
def set_color (sendOk : Bool) (red green blue : Int) : Bool × List GoveeCmd :=
  if validate_color_value red && validate_color_value green && validate_color_value blue then
    (sendOk, [GoveeCmd.colorwc red green blue])
  else
    (false, [])

/-- The body of `flash`'s `for i in range(amount)` loop: each iteration sends
`turn_off` then `turn_on`; a failed send clears the success flag. `sendOk k` is
the result of the k-th send of this call; `i` is the index of the next send. -/
def flashIter (sendOk : Nat → Bool) : Nat → Nat → Bool × List GoveeCmd
  | _, 0 => (true, [])
  | i, Nat.succ n =>
    let rest := flashIter sendOk (i + 2) n
    (sendOk i && (sendOk (i + 1) && rest.1),
      GoveeCmd.turnOff :: GoveeCmd.turnOn :: rest.2)

/-- `flash`: rejects non-positive amounts, otherwise runs the off/on loop. -/
def flash (sendOk : Nat → Bool) (amount : Int) : Bool × List GoveeCmd :=
  if amount ≤ 0 then (false, [])
  else flashIter sendOk 0 amount.toNat

/-- The command trace of `amount` flash cycles. -/
def flashTrace : Nat → List GoveeCmd
  | 0 => []
  | Nat.succ n => GoveeCmd.turnOff :: GoveeCmd.turnOn :: flashTrace n

/-! ## Motor (src/plugins/motor.py) -/

/-- The two GPIO direction pins of the motor: true = energized (HIGH). -/
structure PinState where
  forward : Bool
  reverse : Bool
  deriving DecidableEq, Repr

def MIN_DURATION : ℚ := 1 / 10

def MAX_DURATION : ℚ := 60

/-- `_validate_duration`: `MIN_DURATION <= duration <= MAX_DURATION`. -/
def validate_duration (duration : ℚ) : Bool :=
  decide (MIN_DURATION ≤ duration) && decide (duration ≤ MAX_DURATION)

def setForward (b : Bool) (s : PinState) : PinState := { s with forward := b }

def setReverse (b : Bool) (s : PinState) : PinState := { s with reverse := b }

/-- `_stop_motor`: forward pin LOW, then reverse pin LOW. -/
def stop_motor (s : PinState) : PinState := setReverse false (setForward false s)

/-- Applies a sequence of pin writes, recording the state after each write. -/
def applyWrites (s : PinState) : List (PinState → PinState) → List PinState
  | [] => []
  | w :: ws => w s :: applyWrites (w s) ws

/-- Result of a move call: `raised` models the RuntimeError / ValueError thrown
before any pin write when the motor is uninitialized or the duration invalid;
`returned ok` is the Python return value. -/
inductive MoveOutcome
  | raised
  | returned (ok : Bool)
  deriving DecidableEq, Repr

/-- The pin writes of `move_forward`'s try body, in source order:
reverse LOW, forward HIGH, (sleep), forward LOW. -/
def forwardWrites : List (PinState → PinState) :=
  [setReverse false, setForward true, setForward false]

/-- The pin writes of `move_reverse`'s try body, in source order:
forward LOW, reverse HIGH, (sleep), reverse LOW. -/
def reverseWrites : List (PinState → PinState) :=
  [setForward false, setReverse true, setReverse false]

/-- The try/except body shared by both move operations, under a single-fault
model: `fault = some j` means an exception is raised in the try body after the
first `j` pin writes have landed, upon which the except branch runs
`_stop_motor` and returns False; `fault = none` is the fault-free run returning
True. Returns (result, final pin state, trace of pin states after each write). -/
def move_body (writes : List (PinState → PinState)) (fault : Option Nat) (s0 : PinState) :
    Bool × PinState × List PinState :=
  match fault with
  | none =>
    let tr := applyWrites s0 writes
    (true, tr.getLastD s0, tr)
  | some j =>
    let tr0 := applyWrites s0 (writes.take j)
    let c1 := setForward false (tr0.getLastD s0)
    let c2 := setReverse false c1
    (false, c2, tr0 ++ [c1, c2])

/-- `move_forward`: raises when uninitialized or the duration is out of range,
otherwise runs the forward write sequence with fail-safe except branch. -/
def move_forward (initialized : Bool) (duration : ℚ) (fault : Option Nat) (s0 : PinState) :
    MoveOutcome × PinState × List PinState :=
  if initialized = false then (MoveOutcome.raised, s0, [])
  else if validate_duration duration = false then (MoveOutcome.raised, s0, [])
  else
    let b := move_body forwardWrites fault s0
    (MoveOutcome.returned b.1, b.2)

/-- `move_reverse`: raises when uninitialized or the duration is out of range,
otherwise runs the reverse write sequence with fail-safe except branch. -/
def move_reverse (initialized : Bool) (duration : ℚ) (fault : Option Nat) (s0 : PinState) :
    MoveOutcome × PinState × List PinState :=
  if initialized = false then (MoveOutcome.raised, s0, [])
  else if validate_duration duration = false then (MoveOutcome.raised, s0, [])
  else
    let b := move_body reverseWrites fault s0
    (MoveOutcome.returned b.1, b.2)

/-! ## Ultrasonic sensor and detection (src/plugins/ultrasonic.py, src/main.py) -/

def SPEED_OF_SOUND : ℚ := 34300

/-- `read_distance`: None when the sensor is uninitialized, when no echo is
received within the timeout (`echo_duration = none`), or when the computed
distance falls outside `[min_distance, max_distance]`. -/
def read_distance (initialized : Bool) (echo_duration : Option ℚ)
    (min_distance max_distance : ℚ) : Option ℚ :=
  if initialized = false then none
  else
    match echo_duration with
    | none => none
    | some t =>
      let distance := t * SPEED_OF_SOUND / 2
      if distance < min_distance then none
      else if distance > max_distance then none
      else some distance

/-- Python truthiness of an optional float: `None` and `0.0` are falsy. -/
def pyTruthy : Option ℚ → Bool
  | none => false
  | some x => !decide (x = 0)

/-- `get_shortest_distance` (src/main.py): reads both sensors; the guard
`if not distance_1 or not distance_2: return None` skips the tick whenever
either reading is falsy, otherwise returns the minimum. -/
def get_shortest_distance (distance_1 distance_2 : Option ℚ) : Option ℚ :=
  if !pyTruthy distance_1 || !pyTruthy distance_2 then none
  else
    match distance_1, distance_2 with
    | some a, some b => some (min a b)
    | _, _ => none

/-! ## Scene manager (src/scene_manager.py) -/

/-- Observable outcome of one step's `execute_effects` call. -/
inductive EffectsOutcome
  | ok
  | dispatchFail
  deriving DecidableEq, Repr

/-- `execute_step` for a step with the given effects outcome and configured
duration: on dispatch success it sleeps the configured duration when positive
and returns True; on dispatch failure it returns False immediately with no
sleep. Returns (result, seconds slept). -/
def execute_step (effects : EffectsOutcome) (duration : ℚ) : Bool × ℚ :=
  match effects with
  | EffectsOutcome.ok => (true, if 0 < duration then duration else 0)
  | EffectsOutcome.dispatchFail => (false, 0)

/-- Total dwell time of a successful step: the time `execute_effects` took
plus the sleep performed afterwards. -/
def execute_step_dwell (dispatch_time duration : ℚ) : ℚ :=
  dispatch_time + (execute_step EffectsOutcome.ok duration).2

/-- The step loop of `execute_scene`: `if not self.execute_step(...): return
False`. Returns (scene result, number of steps executed). -/
def runSteps : List (EffectsOutcome × ℚ) → Bool × Nat
  | [] => (true, 0)
  | s :: rest =>
    if (execute_step s.1 s.2).1 then
      ((runSteps rest).1, (runSteps rest).2 + 1)
    else (false, 1)

/-- `execute_scene` on a resolved scene's step list: an empty step list returns
True immediately, otherwise the step loop runs. `execute_scene` never calls
`execute_emergency_cleanup`. Returns (result, steps executed, cleanup invoked). -/
def execute_scene (steps : List (EffectsOutcome × ℚ)) : Bool × Nat × Bool :=
  if steps.isEmpty then (true, 0, false)
  else ((runSteps steps).1, (runSteps steps).2, false)

/-! ## Busy guard (src/old_files/main.py, run_halloween_sequence) -/

/-- The module-level flags of old_files/main.py consulted by
`run_halloween_sequence`. -/
structure SysState where
  sequence_running : Bool
  system_initialized : Bool
  deriving DecidableEq, Repr

/-- `run_halloween_sequence`: rejects when `SEQUENCE_RUNNING` is already set or
the system is uninitialized, leaving all state untouched; otherwise sets the
flag, runs the selected scene (its result is `scene_result`), and in the
`finally` block clears the flag and runs emergency cleanup. Returns
(result, final state, scene executed, cleanup invoked). -/
def run_halloween_sequence (st : SysState) (scene_result : Bool) :
    Bool × SysState × Bool × Bool :=
  if st.sequence_running then (false, st, false, false)
  else if st.system_initialized = false then (false, st, false, false)
  else (scene_result, { st with sequence_running := false }, true, true)

/-! ## Emergency cleanup (src/scene_manager.py, execute_emergency_cleanup) -/

/-- The `action` field of a configured cleanup entry. -/
inductive CleanupType
  | relay_off
  | motor_close
  | lights_off
  | other
  deriving DecidableEq, Repr

/-- One entry of `error_handling.emergency_cleanup`. -/
structure CleanupAction where
  action : CleanupType
  target : String
  deriving DecidableEq, Repr

/-- Hardware commands issued by cleanup actions. -/
inductive HwCmd
  | relayOff (name : String)
  | motorReverse (duration : ℚ)
  | lightsOff
  deriving DecidableEq, Repr

/-- The subset of `hardware_refs` keys consulted by the cleanup loop:
`relays` holds the base names n for which key `n + "_relay"` is present. -/
structure HardwareRefs where
  relays : List String
  motor : Bool
  lights : Bool
  deriving DecidableEq, Repr

/-- Events observable from the cleanup loop: entering the try block for the
i-th configured action, and each hardware command issued. -/
inductive CleanupEv
  | attempt (i : Nat)
  | cmd (c : HwCmd)
  deriving DecidableEq, Repr

/-- The hardware commands one cleanup action issues when its hardware
reference is present (a missing reference issues nothing). -/
def cleanup_action_cmds (hw : HardwareRefs) (a : CleanupAction) : List HwCmd :=
  match a.action with
  | CleanupType.relay_off =>
    if hw.relays.contains a.target then [HwCmd.relayOff a.target] else []
  | CleanupType.motor_close => if hw.motor then [HwCmd.motorReverse 6] else []
  | CleanupType.lights_off => if hw.lights then [HwCmd.lightsOff] else []
  | CleanupType.other => []

/-- The loop of `execute_emergency_cleanup` with fault injection: `fault i`
means the hardware call of the i-th action raises; the per-action try/except
catches it and the loop continues with the next action. `i` is the index of
the next action. -/
def cleanup_loop (hw : HardwareRefs) (fault : Nat → Bool) :
    Nat → List CleanupAction → List CleanupEv
  | _, [] => []
  | i, a :: rest =>
    CleanupEv.attempt i ::
      ((if fault i then [] else (cleanup_action_cmds hw a).map CleanupEv.cmd) ++
        cleanup_loop hw fault (i + 1) rest)

/-- `execute_emergency_cleanup`: runs the cleanup loop over the configured
actions from the first one. -/
def execute_emergency_cleanup (hw : HardwareRefs) (fault : Nat → Bool)
    (actions : List CleanupAction) : List CleanupEv :=
  cleanup_loop hw fault 0 actions

def attemptIdx : CleanupEv → Option Nat
  | CleanupEv.attempt i => some i
  | CleanupEv.cmd _ => none

/-- The indices of the actions attempted, in event order. -/
def attemptsOf (evs : List CleanupEv) : List Nat := evs.filterMap attemptIdx

/-! ## Effect dispatcher (src/scene_manager.py, execute_effects and helpers) -/

/-- The `lights` sub-config of an effects bundle; `onFlag` stands for the
source key `on`, a reserved word here. -/
structure LightConfig where
  color : List Int
  flash : Bool
  flash_amount : Int
  off : Bool
  onFlag : Bool

/-- The `audio` sub-config of an effects bundle. -/
structure AudioConfig where
  file : Option String
  volume : ℚ

/-- The `motor` sub-config of an effects bundle. -/
structure MotorConfig where
  action : Option String
  duration : ℚ

/-- The `relay` sub-config of an effects bundle. -/
structure RelayConfig where
  name : Option String
  action : Option String
  duration : ℚ

/-- An effects bundle: zero or one of each sub-effect. -/
structure Effects where
  lights : Option LightConfig
  audio : Option AudioConfig
  motor : Option MotorConfig
  relay : Option RelayConfig

/-- The motor handle held in `hardware_refs`, with the fault model of
`move_forward`/`move_reverse`. -/
structure MotorHw where
  initialized : Bool
  pins : PinState
  fault : Option Nat

/-- The hardware registry and collaborator results consulted by
`execute_effects`: presence flags for each reference, the result of
`player.play()` per audio player, and relay command results. -/
structure EffectsHardware where
  lights : Bool
  players : List String
  playResult : String → Bool
  motor : Option MotorHw
  relays : List String
  relayOnResult : Bool
  relayOffResult : Bool

/-- `execute_light_effect`: fails when the lights reference is missing or the
color list is not an RGB triple; a `set_color` failure is only logged as a
warning, so the effect still returns True. -/
def execute_light_effect (hw : EffectsHardware) (cfg : LightConfig) : Bool :=
  if hw.lights = false then false
  else if cfg.color.length ≠ 3 then false
  else true

/-- `execute_audio_effect`: fails when no (truthy) file is given, when the file
is not one of the three registered players, or when its hardware reference is
missing; otherwise sets the volume and returns `player.play()`. -/
def execute_audio_effect (hw : EffectsHardware) (cfg : AudioConfig) : Bool :=
  match cfg.file with
  | none => false
  | some f =>
    if f = "" then false
    else if f = "opening" ∨ f = "creepy" ∨ f = "thump" then
      if hw.players.contains f then hw.playResult f else false
    else false

/-- `execute_motor_effect`: fails when the motor reference is missing or the
action is unknown; otherwise returns the move call's result (a raised
ValueError or RuntimeError is caught by the surrounding except and yields
False). -/
def execute_motor_effect (hw : EffectsHardware) (cfg : MotorConfig) : Bool :=
  match hw.motor with
  | none => false
  | some m =>
    match cfg.action with
    | none => false
    | some a =>
      if a = "open" then
        match (move_forward m.initialized cfg.duration m.fault m.pins).1 with
        | MoveOutcome.returned ok => ok
        | MoveOutcome.raised => false
      else if a = "close" then
        match (move_reverse m.initialized cfg.duration m.fault m.pins).1 with
        | MoveOutcome.returned ok => ok
        | MoveOutcome.raised => false
      else false

/-- `execute_relay_effect`: fails when no (truthy) relay name is given, when
the named relay reference is missing, or when the action is unknown; otherwise
returns the relay command's result. -/
def execute_relay_effect (hw : EffectsHardware) (cfg : RelayConfig) : Bool :=
  match cfg.name with
  | none => false
  | some n =>
    if n = "" then false
    else if hw.relays.contains n = false then false
    else
      match cfg.action with
      | none => false
      | some a =>
        if a = "on" then hw.relayOnResult
        else if a = "off" then hw.relayOffResult
        else false

/-- The four sub-effect kinds, in the fixed dispatch order of the source. -/
inductive SubKind
  | lights
  | audio
  | motor
  | relay
  deriving DecidableEq, Repr

/-- `execute_effects`: dispatches each present sub-effect in the fixed order
lights, audio, motor, relay; a failed sub-effect clears the success flag and
the next sub-effect is dispatched regardless. Returns (success, the attempted
sub-effects with each one's dispatch result, in dispatch order). -/
def execute_effects (hw : EffectsHardware) (e : Effects) : Bool × List (SubKind × Bool) :=
  let tL :=
    match e.lights with
    | none => ([] : List (SubKind × Bool))
    | some c => [(SubKind.lights, execute_light_effect hw c)]
  let tA :=
    match e.audio with
    | none => ([] : List (SubKind × Bool))
    | some c => [(SubKind.audio, execute_audio_effect hw c)]
  let tM :=
    match e.motor with
    | none => ([] : List (SubKind × Bool))
    | some c => [(SubKind.motor, execute_motor_effect hw c)]
  let tR :=
    match e.relay with
    | none => ([] : List (SubKind × Bool))
    | some c => [(SubKind.relay, execute_relay_effect hw c)]
  ((tL ++ tA ++ tM ++ tR).all (fun p => p.2), tL ++ tA ++ tM ++ tR)

/-- The sub-effects present in a bundle, in the fixed dispatch order. -/
def presentKinds (e : Effects) : List SubKind :=
  (match e.lights with | none => [] | some _ => [SubKind.lights]) ++
    (match e.audio with | none => [] | some _ => [SubKind.audio]) ++
    (match e.motor with | none => [] | some _ => [SubKind.motor]) ++
    (match e.relay with | none => [] | some _ => [SubKind.relay])

/-! ## Scene lookup (src/scene_manager.py, get_scene) -/

/-- The two scene sections of the YAML configuration, as association lists. -/
structure SceneSections (α : Type) where
  scenes : List (String × α)
  alternative_sequences : List (String × α)

/-- `get_scene`: looks the name up in the main `scenes` section first and only
consults `alternative_sequences` when it is absent there. -/
def get_scene {α : Type} (cfg : SceneSections α) (scene_name : String) : Option α :=
  match cfg.scenes.lookup scene_name with
  | some s => some s
  | none => cfg.alternative_sequences.lookup scene_name

/-! ## Helper lemmas -/

lemma flashIter_trace (sendOk : Nat → Bool) (n : Nat) :
    ∀ i, (flashIter sendOk i n).2 = flashTrace n := by
  induction n with
  | zero => intro i; rfl
  | succ n ih => intro i; simp [flashIter, flashTrace, ih]

lemma flashTrace_length (n : Nat) : (flashTrace n).length = 2 * n := by
  induction n with
  | zero => rfl
  | succ n ih => simp [flashTrace, ih]; omega

lemma flashTrace_count_off (n : Nat) :
    (flashTrace n).count GoveeCmd.turnOff = n := by
  induction n with
  | zero => rfl
  | succ n ih => simp [flashTrace, List.count_cons, ih]

lemma flashTrace_count_on (n : Nat) :
    (flashTrace n).count GoveeCmd.turnOn = n := by
  induction n with
  | zero => rfl
  | succ n ih => simp [flashTrace, List.count_cons, ih]

lemma flashTrace_get (n : Nat) :
    ∀ i, i < 2 * n →
      (flashTrace n)[i]? =
        some (if i % 2 = 0 then GoveeCmd.turnOff else GoveeCmd.turnOn) := by
  induction n with
  | zero => intro i h; omega
  | succ n ih =>
    intro i h
    match i with
    | 0 => simp [flashTrace]
    | 1 => simp [flashTrace]
    | Nat.succ (Nat.succ j) =>
      have hj : j < 2 * n := by omega
      have hmod : (j + 2) % 2 = j % 2 := by omega
      simpa [flashTrace, hmod] using ih j hj

lemma flashTrace_getLast (n : Nat) (h : 1 ≤ n) :
    (flashTrace n).getLast? = some GoveeCmd.turnOn := by
  induction n with
  | zero => omega
  | succ n ih =>
    match n, ih with
    | 0, _ => rfl
    | Nat.succ m, ih =>
      have := ih (by omega)
      simpa [flashTrace, List.getLast?] using this

lemma move_body_forward_safe (fault : Option Nat) (s0 : PinState) :
    (∀ s ∈ (move_body forwardWrites fault s0).2.2,
        ¬(s.forward = true ∧ s.reverse = true)) ∧
      (move_body forwardWrites fault s0).2.1.forward = false ∧
      (move_body forwardWrites fault s0).2.1.reverse = false := by
  obtain ⟨f, r⟩ := s0
  cases fault with
  | none => revert f r; decide
  | some j =>
    match j with
    | 0 => revert f r; decide
    | 1 => revert f r; decide
    | 2 => revert f r; decide
    | Nat.succ (Nat.succ (Nat.succ k)) =>
      have h : forwardWrites.take (k + 3) = forwardWrites := by
        simp [forwardWrites]
      rw [move_body, h]
      revert f r; decide

lemma move_body_reverse_safe (fault : Option Nat) (s0 : PinState) :
    (∀ s ∈ (move_body reverseWrites fault s0).2.2,
        ¬(s.forward = true ∧ s.reverse = true)) ∧
      (move_body reverseWrites fault s0).2.1.forward = false ∧
      (move_body reverseWrites fault s0).2.1.reverse = false := by
  obtain ⟨f, r⟩ := s0
  cases fault with
  | none => revert f r; decide
  | some j =>
    match j with
    | 0 => revert f r; decide
    | 1 => revert f r; decide
    | 2 => revert f r; decide
    | Nat.succ (Nat.succ (Nat.succ k)) =>
      have h : reverseWrites.take (k + 3) = reverseWrites := by
        simp [reverseWrites]
      rw [move_body, h]
      revert f r; decide

lemma attemptsOf_map_cmd (l : List HwCmd) :
    attemptsOf (l.map CleanupEv.cmd) = [] := by
  induction l with
  | nil => rfl
  | cons c cs ih => simp [attemptsOf, attemptIdx]

lemma cleanup_loop_attempts (hw : HardwareRefs) (fault : Nat → Bool)
    (actions : List CleanupAction) :
    ∀ i, attemptsOf (cleanup_loop hw fault i actions) = List.range' i actions.length := by
  induction actions with
  | nil => intro i; rfl
  | cons a rest ih =>
    intro i
    have hmap := attemptsOf_map_cmd (cleanup_action_cmds hw a)
    simp only [attemptsOf] at hmap ih
    cases h : fault i <;>
      simp [cleanup_loop, h, attemptsOf, attemptIdx, List.range'_succ,
        List.filterMap_append, hmap, ih]

/-! ## Claim theorems -/

/-- C1 (counterexample): for the three-step scene whose second step has a
dispatch failure, `execute_scene` executes only 2 of the 3 steps — step 3 is
never executed, so the claim that all subsequent steps still run is false. -/
theorem execute_scene_stops_example :
    (execute_scene [(EffectsOutcome.ok, 0), (EffectsOutcome.dispatchFail, 0),
        (EffectsOutcome.ok, 0)]).2.1 = 2 ∧
      (execute_scene [(EffectsOutcome.ok, 0), (EffectsOutcome.dispatchFail, 0),
        (EffectsOutcome.ok, 0)]).2.1 ≠ 3 := by
  constructor <;> simp [execute_scene, runSteps, execute_step]

/-- C1 (amended): when a scene's steps are some successful prefix followed by
a step whose effect dispatch fails, `execute_scene` returns failure, executes
exactly the prefix plus the failing step (later steps are NOT executed: the
loop returns at the first failure), and Emergency Cleanup is not invoked by
`execute_scene`. -/
theorem execute_scene_first_failure (pre post : List (EffectsOutcome × ℚ)) (d : ℚ)
    (hpre : ∀ p ∈ pre, p.1 = EffectsOutcome.ok) :
    execute_scene (pre ++ (EffectsOutcome.dispatchFail, d) :: post) =
      (false, pre.length + 1, false) := by
  have hrun : ∀ l : List (EffectsOutcome × ℚ), (∀ p ∈ l, p.1 = EffectsOutcome.ok) →
      runSteps (l ++ (EffectsOutcome.dispatchFail, d) :: post) = (false, l.length + 1) := by
    intro l
    induction l with
    | nil => intro _; rfl
    | cons p rest ih =>
      intro hl
      have hp : p.1 = EffectsOutcome.ok := hl p (by simp)
      have hr := ih (fun q hq => hl q (by simp [hq]))
      simp [runSteps, hp, execute_step, hr]
  have hne : (pre ++ (EffectsOutcome.dispatchFail, d) :: post).isEmpty = false := by
    cases pre <;> simp [List.isEmpty]
  simp [execute_scene, hne, hrun pre hpre]

/-- C1 witness: a concrete scene ok-fail-ok stops after the second step. -/
theorem execute_scene_first_failure_witness :
    (∀ p ∈ [((EffectsOutcome.ok : EffectsOutcome), (1 : ℚ))], p.1 = EffectsOutcome.ok) ∧
      execute_scene ([(EffectsOutcome.ok, (1 : ℚ))] ++
          (EffectsOutcome.dispatchFail, (0 : ℚ)) :: [(EffectsOutcome.ok, (2 : ℚ))]) =
        (false, 2, false) :=
  ⟨by simp,
    execute_scene_first_failure [(EffectsOutcome.ok, 1)] [(EffectsOutcome.ok, 2)] 0 (by simp)⟩

/-- C2 (counterexample): with sensor 1 timed out (a timeout reading is `none`,
as `read_distance` shows) and sensor 2 valid at 40cm, `get_shortest_distance`
returns `none` (the tick is skipped), not 40. -/
theorem get_shortest_distance_skips_example :
    read_distance true none (2 : ℚ) 400 = none ∧
      get_shortest_distance none (some 40) = none ∧
      get_shortest_distance none (some 40) ≠ some 40 := by
  refine ⟨rfl, rfl, ?_⟩
  rw [show get_shortest_distance none (some 40) = none from rfl]
  simp

/-- C2 (amended): `get_shortest_distance` requires BOTH readings to be valid:
whenever either reading is falsy (None from timeout or out-of-range, or 0.0),
it returns None and the tick is skipped even if the other reading is a valid
distance; the minimum is returned only when both readings are valid. -/
theorem get_shortest_distance_requires_both (a b : ℚ) (d : Option ℚ)
    (ha : a ≠ 0) (hb : b ≠ 0) (hd : pyTruthy d = false) :
    get_shortest_distance d (some a) = none ∧
      get_shortest_distance (some a) d = none ∧
      get_shortest_distance (some a) (some b) = some (min a b) := by
  refine ⟨?_, ?_, ?_⟩
  · simp [get_shortest_distance, hd]
  · simp [get_shortest_distance, hd]
  · simp [get_shortest_distance, pyTruthy, ha, hb]

/-- C2 witness: one sensor at 40cm, the other timed out. -/
theorem get_shortest_distance_requires_both_witness :
    (40 : ℚ) ≠ 0 ∧ (50 : ℚ) ≠ 0 ∧ pyTruthy none = false ∧
      (get_shortest_distance none (some 40) = none ∧
        get_shortest_distance (some 40) none = none ∧
        get_shortest_distance (some 40) (some 50) = some (min 40 50)) :=
  ⟨by norm_num, by norm_num, rfl,
    get_shortest_distance_requires_both 40 50 none (by norm_num) (by norm_num) rfl⟩

/-- C3: a request to run a scene while `SEQUENCE_RUNNING` is set is rejected
with a failure ("busy") result, no scene is executed and nothing is queued,
and the state — including the running scene's flag — is left untouched, so the
already-running scene is unaffected and completes normally. -/
theorem scene_busy_rejected (st : SysState) (scene_result : Bool)
    (h : st.sequence_running = true) :
    run_halloween_sequence st scene_result = (false, st, false, false) := by
  simp [run_halloween_sequence, h]

/-- C3 witness: a busy, initialized system rejects a new request. -/
theorem scene_busy_rejected_witness :
    (SysState.mk true true).sequence_running = true ∧
      run_halloween_sequence (SysState.mk true true) true =
        (false, SysState.mk true true, false, false) :=
  ⟨rfl, scene_busy_rejected (SysState.mk true true) true rfl⟩

/-- C4 (counterexample): `execute_step` sleeps the full configured duration
after dispatching, not `max(0, duration - dispatch_time)`: with dispatch time
2 and duration 1 the step sleeps 1 (not `max 0 (1-2) = 0`) and dwells 3
seconds, not `max 1 2 = 2`. -/
theorem execute_step_sleep_example :
    (execute_step EffectsOutcome.ok 1).2 = 1 ∧
      (execute_step EffectsOutcome.ok 1).2 ≠ max 0 ((1 : ℚ) - 2) ∧
      execute_step_dwell 2 1 = 3 ∧
      execute_step_dwell 2 1 ≠ max 1 2 := by
  refine ⟨?_, ?_, ?_, ?_⟩ <;> norm_num [execute_step, execute_step_dwell]

/-- C4 (amended): after dispatching a step's effects the executor sleeps the
full configured duration (when positive), so the step's total dwell time is
the dispatch time PLUS `max 0 duration` — the sleep is not shortened by the
time the dispatch took. -/
theorem execute_step_dwell_additive (t d : ℚ) :
    (execute_step EffectsOutcome.ok d).2 = max 0 d ∧
      execute_step_dwell t d = t + max 0 d := by
  have h : (if 0 < d then d else 0) = max 0 d := by
    rcases le_or_lt d 0 with h | h
    · rw [if_neg (not_lt.mpr h), max_eq_left h]
    · rw [if_pos h, max_eq_right h.le]
  exact ⟨by simpa [execute_step] using h, by simp [execute_step_dwell, execute_step, h]⟩

/-- C5: for any amount N >= 1, `flash` issues exactly N `turn_off` and N
`turn_on` commands, strictly alternating off/on (off at even positions, on at
odd), 2N commands in total, and the last command issued is `turn_on`, leaving
the light on. -/
theorem flash_toggle_spec (sendOk : Nat → Bool) (N : Int) (h : 1 ≤ N) :
    (flash sendOk N).2.length = 2 * N.toNat ∧
      (flash sendOk N).2.count GoveeCmd.turnOff = N.toNat ∧
      (flash sendOk N).2.count GoveeCmd.turnOn = N.toNat ∧
      (∀ i, i < 2 * N.toNat →
        (flash sendOk N).2[i]? =
          some (if i % 2 = 0 then GoveeCmd.turnOff else GoveeCmd.turnOn)) ∧
      (flash sendOk N).2.getLast? = some GoveeCmd.turnOn := by
  have hne : ¬N ≤ 0 := by omega
  have ht : (flash sendOk N).2 = flashTrace N.toNat := by
    simp [flash, hne, flashIter_trace]
  rw [ht]
  exact ⟨flashTrace_length _, flashTrace_count_off _, flashTrace_count_on _,
    flashTrace_get _, flashTrace_getLast _ (by omega)⟩

/-- C5 witness: flash(amount=2) issues off,on,off,on. -/
theorem flash_toggle_spec_witness :
    (1 : Int) ≤ 2 ∧
      ((flash (fun _ => true) 2).2.length = 2 * (2 : Int).toNat ∧
        (flash (fun _ => true) 2).2.count GoveeCmd.turnOff = (2 : Int).toNat ∧
        (flash (fun _ => true) 2).2.count GoveeCmd.turnOn = (2 : Int).toNat ∧
        (∀ i, i < 2 * (2 : Int).toNat →
          (flash (fun _ => true) 2).2[i]? =
            some (if i % 2 = 0 then GoveeCmd.turnOff else GoveeCmd.turnOn)) ∧
        (flash (fun _ => true) 2).2.getLast? = some GoveeCmd.turnOn) :=
  ⟨by decide, flash_toggle_spec (fun _ => true) 2 (by decide)⟩

/-- C6: `set_color` on a triple with every channel in [0,255] sends exactly
the color command and returns the send result; on a triple with any channel
outside [0,255] it returns failure and sends nothing, leaving the actuator
state unchanged. -/
theorem set_color_validation (sendOk : Bool) (r g b r2 g2 b2 : Int)
    (hval : 0 ≤ r ∧ r ≤ 255 ∧ 0 ≤ g ∧ g ≤ 255 ∧ 0 ≤ b ∧ b ≤ 255)
    (hbad : ¬(0 ≤ r2 ∧ r2 ≤ 255 ∧ 0 ≤ g2 ∧ g2 ≤ 255 ∧ 0 ≤ b2 ∧ b2 ≤ 255)) :
    set_color sendOk r g b = (sendOk, [GoveeCmd.colorwc r g b]) ∧
      set_color sendOk r2 g2 b2 = (false, []) := by
  constructor
  · rw [set_color, if_pos]
    simp only [validate_color_value, MIN_COLOR_VALUE, MAX_COLOR_VALUE,
      Bool.and_eq_true, decide_eq_true_eq]
    omega
  · rw [set_color, if_neg]
    simp only [validate_color_value, MIN_COLOR_VALUE, MAX_COLOR_VALUE,
      Bool.and_eq_true, decide_eq_true_eq]
    omega

/-- C6 witness: (10,20,30) is accepted and sent; (256,0,0) is rejected with
no command. -/
theorem set_color_validation_witness :
    ((0 : Int) ≤ 10 ∧ (10 : Int) ≤ 255 ∧ (0 : Int) ≤ 20 ∧ (20 : Int) ≤ 255 ∧
        (0 : Int) ≤ 30 ∧ (30 : Int) ≤ 255) ∧
      ¬((0 : Int) ≤ 256 ∧ (256 : Int) ≤ 255 ∧ (0 : Int) ≤ 0 ∧ (0 : Int) ≤ 255 ∧
        (0 : Int) ≤ 0 ∧ (0 : Int) ≤ 255) ∧
      (set_color true 10 20 30 = (true, [GoveeCmd.colorwc 10 20 30]) ∧
        set_color true 256 0 0 = (false, [])) :=
  ⟨by decide, by decide,
    set_color_validation true 10 20 30 256 0 0 (by decide) (by decide)⟩

/-- C7: `execute_emergency_cleanup` attempts every configured action, in list
order, for EVERY fault pattern — in particular even when any earlier action's
hardware call raises, every subsequent action is still attempted. -/
theorem emergency_cleanup_attempts_all (hw : HardwareRefs) (fault : Nat → Bool)
    (actions : List CleanupAction) :
    attemptsOf (execute_emergency_cleanup hw fault actions) =
      List.range actions.length := by
  rw [execute_emergency_cleanup, cleanup_loop_attempts, List.range_eq_range']

/-- C8: on an initialized motor with an in-range duration, `move_forward` and
`move_reverse` never produce a pin state with both direction pins energized
at once, and — with or without an internal fault, i.e. whether the call
reports success or failure — return with both direction pins de-energized. -/
theorem motor_move_fail_safe (initialized : Bool) (duration : ℚ) (fault : Option Nat)
    (s0 : PinState) (hinit : initialized = true)
    (hdur : validate_duration duration = true) :
    (∀ s ∈ (move_forward initialized duration fault s0).2.2,
        ¬(s.forward = true ∧ s.reverse = true)) ∧
      (move_forward initialized duration fault s0).2.1.forward = false ∧
      (move_forward initialized duration fault s0).2.1.reverse = false ∧
      (∀ s ∈ (move_reverse initialized duration fault s0).2.2,
        ¬(s.forward = true ∧ s.reverse = true)) ∧
      (move_reverse initialized duration fault s0).2.1.forward = false ∧
      (move_reverse initialized duration fault s0).2.1.reverse = false := by
  subst hinit
  have e1 : move_forward true duration fault s0 =
      (MoveOutcome.returned (move_body forwardWrites fault s0).1,
        (move_body forwardWrites fault s0).2) := by
    simp [move_forward, hdur]
  have e2 : move_reverse true duration fault s0 =
      (MoveOutcome.returned (move_body reverseWrites fault s0).1,
        (move_body reverseWrites fault s0).2) := by
    simp [move_reverse, hdur]
  rw [e1, e2]
  have h1 := move_body_forward_safe fault s0
  have h2 := move_body_reverse_safe fault s0
  exact ⟨h1.1, h1.2.1, h1.2.2, h2.1, h2.2.1, h2.2.2⟩

/-- C8 witness: a fault after the second pin write of a 2-second move still
ends with both pins de-energized. -/
theorem motor_move_fail_safe_witness :
    (true : Bool) = true ∧ validate_duration 2 = true ∧
      ((∀ s ∈ (move_forward true 2 (some 2) (PinState.mk false false)).2.2,
          ¬(s.forward = true ∧ s.reverse = true)) ∧
        (move_forward true 2 (some 2) (PinState.mk false false)).2.1.forward = false ∧
        (move_forward true 2 (some 2) (PinState.mk false false)).2.1.reverse = false ∧
        (∀ s ∈ (move_reverse true 2 (some 2) (PinState.mk false false)).2.2,
          ¬(s.forward = true ∧ s.reverse = true)) ∧
        (move_reverse true 2 (some 2) (PinState.mk false false)).2.1.forward = false ∧
        (move_reverse true 2 (some 2) (PinState.mk false false)).2.1.reverse = false) :=
  ⟨rfl, by norm_num [validate_duration, MIN_DURATION, MAX_DURATION],
    motor_move_fail_safe true 2 (some 2) (PinState.mk false false) rfl
      (by norm_num [validate_duration, MIN_DURATION, MAX_DURATION])⟩

/-- C9: `execute_effects` attempts exactly the sub-effects present in the
bundle, in the fixed order lights, audio, motor, relay, for EVERY hardware
registry — so a failing sub-effect, including one whose named hardware
reference is missing, never prevents the dispatch of its siblings — and it
returns success exactly when every attempted dispatch succeeded. -/
theorem execute_effects_isolation (hw : EffectsHardware) (e : Effects) :
    (execute_effects hw e).2.map Prod.fst = presentKinds e ∧
      ((execute_effects hw e).1 = true ↔
        ∀ p ∈ (execute_effects hw e).2, p.2 = true) := by
  obtain ⟨l, a, m, r⟩ := e
  cases l <;> cases a <;> cases m <;> cases r <;>
    simp [execute_effects, presentKinds]

/-- C10: when a scene name appears in both the `scenes` section and the
`alternative_sequences` section, `get_scene` resolves it to the `scenes`
entry; `alternative_sequences` is consulted only for names absent from
`scenes`. -/
theorem get_scene_prefers_scenes {α : Type} (cfg : SceneSections α)
    (name1 name2 : String) (v w : α)
    (h1 : cfg.scenes.lookup name1 = some v)
    (_h2 : cfg.alternative_sequences.lookup name1 = some w)
    (h3 : cfg.scenes.lookup name2 = none) :
    get_scene cfg name1 = some v ∧
      get_scene cfg name2 = cfg.alternative_sequences.lookup name2 := by
  constructor
  · simp [get_scene, h1]
  · simp [get_scene, h3]

/-- C10 witness: name "a" is in both sections and resolves to the `scenes`
entry 1, not the alternative entry 2; name "b" is only in the alternatives. -/
theorem get_scene_prefers_scenes_witness :
    List.lookup "a" [("a", 1)] = some 1 ∧
      List.lookup "a" [("a", 2), ("b", 3)] = some 2 ∧
      List.lookup "b" [("a", 1)] = (none : Option Nat) ∧
      (get_scene (SceneSections.mk [("a", 1)] [("a", 2), ("b", 3)]) "a" = some 1 ∧
        get_scene (SceneSections.mk [("a", 1)] [("a", 2), ("b", 3)]) "b" =
          List.lookup "b" [("a", 2), ("b", 3)]) :=
  ⟨rfl, rfl, rfl,
    get_scene_prefers_scenes (SceneSections.mk [("a", 1)] [("a", 2), ("b", 3)])
      "a" "b" 1 2 rfl rfl rfl⟩

end HalloweenCoffin
